import Mathlib

/-!
Verification of `pve_backup_sync_to_nas/main.py`.

The Python program is embedded shallowly: every external effect (WOL send,
ICMP ping, SSH probe/connect/exec, the rsync subprocess, the `du` subprocess,
user interruption) is an input oracle collected in `Env`, and the orchestrator
`main` becomes a pure function from configuration, oracle and ping-loop fuel to
a `RunResult` describing the run's outcome and its externally visible actions.

Time is idealized: probes themselves take zero time and only the explicit
`time.sleep` calls advance the elapsed-seconds counter, exactly as the spec's
timing properties assume.
-/

/-- `NASConfig` dataclass: NAS connection configuration (defaults as in source). -/
structure NASConfig where
  mac_address : String
  ip : String
  ssh_user : String := "admin"
  ssh_port : Nat := 22
  ssh_key : Option String := none
  max_wait_time : Nat := 300
  ping_interval : Nat := 5
  ssh_ready_wait : Nat := 30
deriving DecidableEq, Repr

/-- `BackupConfig` dataclass. -/
structure BackupConfig where
  local_dir : String
  nas_dir : String
  rsync_options : String := "-avhP --delete --checksum"
deriving DecidableEq, Repr

/-- `LogConfig` dataclass (no claim depends on it; kept for model completeness). -/
structure LogConfig where
  log_file : String := "/var/log/pve_backup_sync_to_nas.log"
  log_level : String := "INFO"
deriving DecidableEq, Repr

/-- `NotificationConfig` dataclass. -/
structure NotificationConfig where
  enabled : Bool := false
  discord_webhook : Option String := none
  on_success : Bool := true
  on_failure : Bool := true
deriving DecidableEq, Repr

/-- `Config` dataclass: main configuration container. -/
structure Config where
  nas : NASConfig
  backup : BackupConfig
  log : LogConfig := {}
  notification : NotificationConfig
deriving DecidableEq, Repr

/-- Python `str.split()` with no argument: split on whitespace, dropping empty
pieces (used for `rsync_opts.split()` and `result.stdout.split()`). -/
def pySplit (s : String) : List String :=
  (s.split fun c => c = ' ' ∨ c = '\t' ∨ c = '\n').filter (· ≠ "")

/-- Character-list helper: the first list occurs at the head of the second. -/
def leadsWith : List Char → List Char → Bool
  | [], _ => true
  | _ :: _, [] => false
  | p :: ps, c :: cs => p = c && leadsWith ps cs

/-- Character-list helper: the first list occurs somewhere in the second. -/
def occursIn (pat : List Char) : List Char → Bool
  | [] => pat.isEmpty
  | c :: cs => leadsWith pat (c :: cs) || occursIn pat cs

/-- Substring test (Python `pat in s`). -/
def strContains (s pat : String) : Bool :=
  occursIn pat.data s.data

/-- Python truthiness of `config.notification.discord_webhook`
(`None` and the empty string are falsy). -/
def webhookConfigured (n : NotificationConfig) : Bool :=
  match n.discord_webhook with
  | some s => s ≠ ""
  | none => false

/-- `self.ssh_key = Path(nas.ssh_key).expanduser() if nas.ssh_key else None`.
The path text is kept abstract: home-directory expansion rewrites only a
leading tilde, which no claim inspects, so it is modelled as the identity on
the path string.  Python truthiness makes `ssh_key = ""` count as unset. -/
def effectiveSshKey (nas : NASConfig) : Option String :=
  match nas.ssh_key with
  | none => none
  | some k => if k = "" then none else some k

-- ==================== Leaf operations and their oracles ====================

/-- `send_wol`: `send_magic_packet` either succeeds or raises; the oracle `ok`
records which.  Returns `True` on success, `False` when the send raised. -/
def send_wol (ok : Bool) : Bool := ok

/-- One raw outcome of `ping3.ping`: `none` = the call raised; `some none` =
returned `None` (no reply); `some (some d)` = returned a delay value. -/
abbrev PingRaw := Option (Option Nat)

/-- `ping_host`: `result is not None`, any exception gives `False`. -/
def ping_host (raw : PingRaw) : Bool :=
  match raw with
  | none => false
  | some r => r.isSome

/-- Default value of the `timeout` parameter of `check_ssh_ready`. -/
def checkSshReadyDefaultTimeout : Nat := 5

/-- `check_ssh_ready`: a full connect-and-close cycle against the SSH service.
The oracle maps (attempt index, timeout actually passed) to whether the
connect-and-close succeeded; an exception anywhere yields `False`. -/
def check_ssh_ready (oracle : Nat → Nat → Bool) (i : Nat) (timeout : Nat) : Bool :=
  oracle i timeout

/-- `connect_ssh`: sets `self.ssh_client` (always, before connecting) and
returns whether the connect succeeded; the oracle records the outcome. -/
def connect_ssh (ok : Bool) : Bool := ok

/-- Outcome of `ssh_client.exec_command` as seen by `execute_ssh_command`:
either the whole block raised with message `msg`, or the command completed
with an exit status and captured stdout/stderr text. -/
inductive ExecOutcome where
  | raises (msg : String)
  | completes (exitStatus : Int) (out err : String)
deriving DecidableEq, Repr

/-- `execute_ssh_command`: returns `(None, None, False)` when no client exists,
otherwise the command's output, error text and `exit_status == 0`; an
exception inside yields `(None, str(e), False)`. -/
def execute_ssh_command (ssh_client : Option Unit) (_command : String)
    (outcome : ExecOutcome) : Option String × Option String × Bool :=
  match ssh_client with
  | none => (none, none, false)
  | some _ =>
    match outcome with
    | .raises msg => (none, some msg, false)
    | .completes st out err => (some out, some err, st = 0)

/-- Externally visible actions of one run, in program order. -/
inductive Event where
  | sendWolCall
  | connectSshCall
  | rsyncPopen (cmd : List String) (rsyncRsh : Option String)
  | duCall
  | shutdownCall
  | closeSshCall
  | clientClose
  | webhookPost
deriving DecidableEq, Repr

/-- `close_ssh`: closes the client iff `self.ssh_client` is set; the returned
event list records whether a `client.close()` actually happened. -/
def close_ssh (hasClient : Bool) : List Event :=
  if hasClient then [Event.clientClose] else []

/-- `shutdown_nas`: with a client present, both the normal path and the
exception path (connection dropped by the target powering off) log that the
shutdown command was sent and return `True`; without a client it returns
`False`. -/
def shutdown_nas (hasClient : Bool) (execRaises : Bool) : Bool :=
  if hasClient then
    if execRaises then
      true
    else
      true
  else
    false

/-- Outcome of the `du -sh` subprocess: `none` = the `subprocess.run` call (or
anything after it inside the `try`) raised; `some (rc, out)` = it completed
with return code `rc` and stdout text `out`. -/
abbrev DuRaw := Option (Int × String)

/-- `get_directory_size`: human-readable size of a directory, best-effort.
An empty stdout makes `result.stdout.split()[0]` raise IndexError, which the
blanket `except` also converts to `"Unknown"`. -/
def get_directory_size (du : DuRaw) : String :=
  match du with
  | none => "Unknown"
  | some (rc, out) =>
    if rc = 0 then
      match pySplit out with
      | [] => "Unknown"
      | s :: _ => s
    else "Unknown"

/-- `send_discord_notification`: returns whether an HTTP post to the webhook
was attempted (`if not webhook_url: return` skips a falsy URL; the payload
itself and delivery failures do not matter to any claim). -/
def send_discord_notification (webhook_url : String) : Bool :=
  if webhook_url = "" then false else true

-- ==================== wait_for_online ====================

/-- Result of `wait_for_online`: the verdict, the idealized elapsed seconds at
return, the number of `ping_host` calls made, and the `timeout` argument of
each `check_ssh_ready` probe made, in order. -/
structure WaitResult where
  ready : Bool
  elapsed : Nat
  pingCalls : Nat
  sshProbes : List Nat
deriving DecidableEq, Repr

/-- Phase 1 of `wait_for_online`: `while time.time() - start_time < max_wait:
if ping_host(): break; sleep(check_interval)`.  `elapsed` is the idealized
clock, `i` the index of the next ping attempt; the `while/else` clause yields
`(false, elapsed, pings)` on timeout.  `fuel` bounds the unrolling; `none`
models the loop not having exited within `fuel` iterations (with
`ping_interval = 0` the idealized loop never times out). -/
def pingPhase (ping : Nat → Bool) (maxWait interval : Nat) :
    Nat → Nat → Nat → Option (Bool × Nat × Nat)
  | 0, _, _ => none
  | fuel + 1, elapsed, i =>
    if elapsed < maxWait then
      if ping i then some (true, elapsed, i + 1)
      else pingPhase ping maxWait interval fuel (elapsed + interval) (i + 1)
    else some (false, elapsed, i)

/-- Phase 2 retry loop of `wait_for_online`: `while retry_count < 10:
if check_ssh_ready(): return True; retry_count += 1; sleep(5)`, written with
the remaining attempt count `n = 10 - retry_count` counting down.  Returns the
verdict, the elapsed clock at return, and the per-probe timeouts used. -/
def sshRetryLoop (oracle : Nat → Nat → Bool) : Nat → Nat → Nat → Bool × Nat × List Nat
  | 0, elapsed, _ => (false, elapsed, [])
  | n + 1, elapsed, i =>
    if check_ssh_ready oracle i checkSshReadyDefaultTimeout then
      (true, elapsed, [checkSshReadyDefaultTimeout])
    else
      let r := sshRetryLoop oracle n (elapsed + 5) (i + 1)
      (r.1, r.2.1, checkSshReadyDefaultTimeout :: r.2.2)

/-- `wait_for_online`: phase 1 polls `ping_host` every `ping_interval` seconds
until success or `max_wait_time` elapsed (timeout returns `False` with no SSH
probe made); phase 2 sleeps `ssh_ready_wait` seconds and then makes up to 10
SSH-readiness probes 5 seconds apart. -/
def wait_for_online (ping : Nat → Bool) (sshOracle : Nat → Nat → Bool)
    (nas : NASConfig) (fuel : Nat) : Option WaitResult :=
  match pingPhase ping nas.max_wait_time nas.ping_interval fuel 0 0 with
  | none => none
  | some (false, elapsed, pings) =>
    some { ready := false, elapsed := elapsed, pingCalls := pings, sshProbes := [] }
  | some (true, elapsed, pings) =>
    let elapsed := elapsed + nas.ssh_ready_wait
    let r := sshRetryLoop sshOracle 10 elapsed 0
    some { ready := r.1, elapsed := r.2.1, pingCalls := pings, sshProbes := r.2.2 }

-- ==================== rsync_backup ====================

/-- Outcome of the rsync subprocess: `.error msg` = `Popen` (or the streaming
loop around it) raised with message `msg`; `.ok rc` = the child exited with
return code `rc`. -/
abbrev RsyncLaunch := Except String Int

/-- Result of `rsync_backup`: the returned Boolean, the invocation actually
handed to `Popen` (command argv and the `RSYNC_RSH` value, if any; `none` when
the subprocess was never launched), and the log lines it emitted. -/
structure RsyncResult where
  ok : Bool
  invocation : Option (List String × Option String)
  logs : List String
deriving DecidableEq, Repr

/-- `rsync_backup`: fails fast when the source directory is missing (logging
the reason, launching nothing); otherwise builds the rsync argv, sets
`RSYNC_RSH` to route ssh through the configured key and port iff a key is
configured and its file exists, launches the child and succeeds iff it exits
with code 0. -/
def rsync_backup (ssh_user nas_ip : String) (ssh_port : Nat)
    (ssh_key : Option String) (sshKeyExists : Bool) (backup : BackupConfig)
    (srcExists : Bool) (launch : RsyncLaunch) : RsyncResult :=
  let source_dir := backup.local_dir
  let target_dir := backup.nas_dir
  let rsync_opts := backup.rsync_options
  if ¬ srcExists then
    { ok := false, invocation := none,
      logs := ["Source directory does not exist: " ++ source_dir] }
  else
    let target := ssh_user ++ "@" ++ nas_ip ++ ":" ++ target_dir
    let rsh : Option String :=
      match ssh_key with
      | some k =>
        if sshKeyExists then
          some ("/usr/bin/ssh -i " ++ k ++ " -p " ++ toString ssh_port)
        else none
      | none => none
    let cmd := ["/usr/bin/rsync"] ++ pySplit rsync_opts
      ++ [source_dir ++ "/", target ++ "/"]
    let logs := ["Starting Rsync backup...", "Command: " ++ String.intercalate " " cmd]
    match launch with
    | .error msg =>
      { ok := false, invocation := some (cmd, rsh),
        logs := logs ++ ["Rsync execution exception: " ++ msg] }
    | .ok rc =>
      if rc = 0 then
        { ok := true, invocation := some (cmd, rsh),
          logs := logs ++ ["Rsync backup completed successfully"] }
      else
        { ok := false, invocation := some (cmd, rsh),
          logs := logs ++ ["Rsync failed (return code: " ++ toString rc ++ ")"] }

-- ==================== The run orchestrator ====================

/-- Points between the statements of `main`'s `try` block at which a
`KeyboardInterrupt` may fire in the model. -/
inductive IPoint where
  | beforeWol
  | beforeWait
  | beforeConnect
  | beforeRsync
  | beforeDu
  | beforeShutdown
  | beforeSuccess
deriving DecidableEq, Repr

/-- The external world of one run: one oracle per effectful call site. -/
structure Env where
  wolOk : Bool
  pingRaw : Nat → PingRaw
  sshOracle : Nat → Nat → Bool
  connectOk : Bool
  srcExists : Bool
  sshKeyExists : Bool
  rsyncLaunch : RsyncLaunch
  du : DuRaw
  shutdownExecRaises : Bool
  interrupt : Option IPoint

/-- The liveness-probe function `main`'s run feeds to `wait_for_online`. -/
def pingFn (env : Env) : Nat → Bool := fun i => ping_host (env.pingRaw i)

/-- State of `main`'s local variables (and of `self.ssh_client`) when the
`try` block is left, by whichever path. -/
structure TryOutcome where
  success : Bool
  errorMsg : Option String
  fileSize : Option String
  waitVerdict : Option Bool
  connectCalled : Bool
  rsyncResult : Option RsyncResult
  events : List Event
deriving Repr

/-- The state reached when a `KeyboardInterrupt` fires: `success` stays
`False` and `error_msg` becomes `"User interrupted"`. -/
def interruptedOutcome (events : List Event) (wv : Option Bool)
    (fs : Option String) (cc : Bool) (rr : Option RsyncResult) : TryOutcome :=
  { success := false, errorMsg := some "User interrupted", fileSize := fs,
    waitVerdict := wv, connectCalled := cc, rsyncResult := rr, events := events }

/-- The `rsync_backup` call exactly as `main`'s step 3 makes it, with the
`NASBackup` convenience attributes filled in from the configuration. -/
def rsyncStep (cfg : Config) (env : Env) : RsyncResult :=
  rsync_backup cfg.nas.ssh_user cfg.nas.ip cfg.nas.ssh_port
    (effectiveSshKey cfg.nas) env.sshKeyExists cfg.backup
    env.srcExists env.rsyncLaunch

/-- The `Popen` launch event of an `rsync_backup` call, if it launched. -/
def popenEvents (rr : RsyncResult) : List Event :=
  match rr.invocation with
  | some (cmd, rsh) => [Event.rsyncPopen cmd rsh]
  | none => []

/-- The `try` block of `main` (steps 1-4 plus the success assignment): each
failed step raises, which the `except Exception` clause converts into
`error_msg = str(e)` with `success` still `False`.  `none` models the run
hanging inside the ping loop (fuel exhausted). -/
def tryBody (cfg : Config) (env : Env) (fuel : Nat) : Option TryOutcome :=
  if env.interrupt = some IPoint.beforeWol then
    some (interruptedOutcome [] none none false none)
  else
    let ev := [Event.sendWolCall]
    if ! send_wol env.wolOk then
      some { success := false, errorMsg := some "Failed to send WOL packet",
             fileSize := none, waitVerdict := none, connectCalled := false,
             rsyncResult := none, events := ev }
    else if env.interrupt = some IPoint.beforeWait then
      some (interruptedOutcome ev none none false none)
    else
      match wait_for_online (pingFn env) env.sshOracle cfg.nas fuel with
      | none => none
      | some w =>
        if ! w.ready then
          some { success := false, errorMsg := some "NAS failed to come online",
                 fileSize := none, waitVerdict := some false, connectCalled := false,
                 rsyncResult := none, events := ev }
        else if env.interrupt = some IPoint.beforeConnect then
          some (interruptedOutcome ev (some true) none false none)
        else
          let ev := ev ++ [Event.connectSshCall]
          if ! connect_ssh env.connectOk then
            some { success := false, errorMsg := some "Failed to establish SSH connection",
                   fileSize := none, waitVerdict := some true, connectCalled := true,
                   rsyncResult := none, events := ev }
          else if env.interrupt = some IPoint.beforeRsync then
            some (interruptedOutcome ev (some true) none true none)
          else
            let rr := rsyncStep cfg env
            let ev := ev ++ popenEvents rr
            if ! rr.ok then
              some { success := false, errorMsg := some "Backup failed",
                     fileSize := none, waitVerdict := some true, connectCalled := true,
                     rsyncResult := some rr, events := ev }
            else if env.interrupt = some IPoint.beforeDu then
              some (interruptedOutcome ev (some true) none true (some rr))
            else
              let fs := get_directory_size env.du
              let ev := ev ++ [Event.duCall]
              if env.interrupt = some IPoint.beforeShutdown then
                some (interruptedOutcome ev (some true) (some fs) true (some rr))
              else
                let _sd := shutdown_nas true env.shutdownExecRaises
                let ev := ev ++ [Event.shutdownCall]
                if env.interrupt = some IPoint.beforeSuccess then
                  some (interruptedOutcome ev (some true) (some fs) true (some rr))
                else
                  some { success := true, errorMsg := none, fileSize := some fs,
                         waitVerdict := some true, connectCalled := true,
                         rsyncResult := some rr, events := ev }

/-- Everything `main` decides in one run, plus the externally visible actions
in order. -/
structure RunResult where
  success : Bool
  errorMsg : Option String
  fileSize : Option String
  waitVerdict : Option Bool
  connectCalled : Bool
  rsyncResult : Option RsyncResult
  notified : Bool
  exitCode : Nat
  events : List Event
deriving Repr

/-- The notification part of `main`'s `finally` clause: a webhook post is
attempted iff notification is enabled, the run outcome matches the
on_success/on_failure toggles, and a (truthy) webhook URL is configured. -/
def notifyDecision (n : NotificationConfig) (success : Bool) : Bool :=
  if n.enabled then
    let should_notify := (success && n.on_success) || (!success && n.on_failure)
    if should_notify && webhookConfigured n then
      send_discord_notification (n.discord_webhook.getD "")
    else false
  else false

/-- The source's `main` after configuration loading (the name `main` itself is
reserved by Lean; the `sys.argv`/`load_config` part is outside the model, as
every claim concerns the run itself): the `try` block, then the `finally`
clause — always `close_ssh()`, then the conditional webhook notification, then
`sys.exit(0 if success else 1)`. -/
def mainRun (cfg : Config) (env : Env) (fuel : Nat) : Option RunResult :=
  match tryBody cfg env fuel with
  | none => none
  | some t =>
    let notified := notifyDecision cfg.notification t.success
    let ev := t.events ++ [Event.closeSshCall] ++ close_ssh t.connectCalled
      ++ (if notified then [Event.webhookPost] else [])
    some { success := t.success, errorMsg := t.errorMsg, fileSize := t.fileSize,
           waitVerdict := t.waitVerdict, connectCalled := t.connectCalled,
           rsyncResult := t.rsyncResult, notified := notified,
           exitCode := if t.success then 0 else 1, events := ev }

/-- The possible states in which the `try` block can be left: the seven
interruption points, the four failure paths, and the success path. -/
def tryLeaves (cfg : Config) (env : Env) : List TryOutcome :=
  let ev1 : List Event := [Event.sendWolCall]
  let ev2 := ev1 ++ [Event.connectSshCall]
  let rr := rsyncStep cfg env
  let evR := ev2 ++ popenEvents rr
  let fs := get_directory_size env.du
  [interruptedOutcome [] none none false none,
   { success := false, errorMsg := some "Failed to send WOL packet", fileSize := none,
     waitVerdict := none, connectCalled := false, rsyncResult := none, events := ev1 },
   interruptedOutcome ev1 none none false none,
   { success := false, errorMsg := some "NAS failed to come online", fileSize := none,
     waitVerdict := some false, connectCalled := false, rsyncResult := none, events := ev1 },
   interruptedOutcome ev1 (some true) none false none,
   { success := false, errorMsg := some "Failed to establish SSH connection",
     fileSize := none, waitVerdict := some true, connectCalled := true,
     rsyncResult := none, events := ev2 },
   interruptedOutcome ev2 (some true) none true none,
   { success := false, errorMsg := some "Backup failed", fileSize := none,
     waitVerdict := some true, connectCalled := true, rsyncResult := some rr,
     events := evR },
   interruptedOutcome evR (some true) none true (some rr),
   interruptedOutcome (evR ++ [Event.duCall]) (some true) (some fs) true (some rr),
   interruptedOutcome (evR ++ [Event.duCall] ++ [Event.shutdownCall]) (some true)
     (some fs) true (some rr),
   { success := true, errorMsg := none, fileSize := some fs, waitVerdict := some true,
     connectCalled := true, rsyncResult := some rr,
     events := evR ++ [Event.duCall] ++ [Event.shutdownCall] }]

/-- Projection of a `TryOutcome` onto everything except the `fileSize` field
(whose value is the only thing the size probe influences). -/
def tryView (t : TryOutcome) :
    Bool × Option String × Option Bool × Bool × Option RsyncResult × List Event :=
  (t.success, t.errorMsg, t.waitVerdict, t.connectCalled, t.rsyncResult, t.events)

-- ==================== Concrete runs used by witnesses ====================

/-- A concrete NAS configuration with the source's default timing parameters. -/
def nasW : NASConfig := { mac_address := "00:11:22:33:44:55", ip := "192.168.1.50" }

/-- A concrete full configuration (notification disabled). -/
def cfgW : Config :=
  { nas := nasW,
    backup := { local_dir := "/mnt/pve/dump", nas_dir := "/volume1/backup" },
    notification := {} }

/-- Like `cfgW` but with notification enabled and a webhook configured. -/
def cfgWnotif : Config :=
  { cfgW with notification :=
      { enabled := true, discord_webhook := some "https://discord.example/hook",
        on_success := true, on_failure := true } }

/-- Like `cfgW` but notification enabled with NO webhook configured. -/
def cfgWnoHook : Config :=
  { cfgW with notification :=
      { enabled := true, discord_webhook := none,
        on_success := true, on_failure := true } }

/-- An external world in which every step succeeds at once. -/
def envBase : Env :=
  { wolOk := true, pingRaw := fun _ => some (some 1),
    sshOracle := fun _ _ => true, connectOk := true, srcExists := true,
    sshKeyExists := false, rsyncLaunch := .ok 0,
    du := some (0, "12G\t/mnt/pve/dump"), shutdownExecRaises := false,
    interrupt := none }

/-- World where the NAS never answers a ping. -/
def envNoPing : Env := { envBase with pingRaw := fun _ => none }

/-- World where the SSH connect of step 3 fails. -/
def envNoConnect : Env := { envBase with connectOk := false }

/-- World where the WOL send raises. -/
def envNoWol : Env := { envBase with wolOk := false }

/-- World where the backup source directory is missing. -/
def envNoSrc : Env := { envBase with srcExists := false }

/-- World where the shutdown command drops the connection. -/
def envShutdownDrop : Env := { envBase with shutdownExecRaises := true }

/-- Run outcome of `envNoPing` under `cfgW` (readiness times out). -/
def rNoPing : RunResult :=
  { success := false, errorMsg := some "NAS failed to come online", fileSize := none,
    waitVerdict := some false, connectCalled := false, rsyncResult := none,
    notified := false, exitCode := 1, events := [.sendWolCall, .closeSshCall] }

/-- Run outcome of `envNoConnect` under `cfgW` (SSH connect fails). -/
def rNoConnect : RunResult :=
  { success := false, errorMsg := some "Failed to establish SSH connection",
    fileSize := none, waitVerdict := some true, connectCalled := true,
    rsyncResult := none, notified := false, exitCode := 1,
    events := [.sendWolCall, .connectSshCall, .closeSshCall, .clientClose] }

/-- Run outcome of `envNoWol` under `cfgWnotif` (WOL fails, failure notified). -/
def rNoWol : RunResult :=
  { success := false, errorMsg := some "Failed to send WOL packet", fileSize := none,
    waitVerdict := none, connectCalled := false, rsyncResult := none,
    notified := true, exitCode := 1,
    events := [.sendWolCall, .closeSshCall, .webhookPost] }

/-- Run outcome of `envNoSrc` under `cfgW` (source directory missing). -/
def rNoSrc : RunResult :=
  { success := false, errorMsg := some "Backup failed", fileSize := none,
    waitVerdict := some true, connectCalled := true,
    rsyncResult := some { ok := false, invocation := none,
                          logs := ["Source directory does not exist: /mnt/pve/dump"] },
    notified := false, exitCode := 1,
    events := [.sendWolCall, .connectSshCall, .closeSshCall, .clientClose] }

/-- The readiness verdict reached by `envBase`-like worlds (instant success). -/
def wReady : WaitResult :=
  { ready := true, elapsed := 30, pingCalls := 1, sshProbes := [5] }

-- ==================== Readiness state machine lemmas ====================

/-- Phase-1 helper: when every ping fails and the interval is positive, the
loop exits by timeout with the final clock in `[maxWait, maxWait + interval)`,
provided the fuel exceeds the remaining wait. -/
theorem pingPhase_allFail (ping : Nat → Bool) (maxWait interval : Nat)
    (hpos : 0 < interval) (hall : ∀ j, ping j = false) :
    ∀ (fuel elapsed i : Nat), maxWait - elapsed < fuel → elapsed < maxWait + interval →
      ∃ e k, pingPhase ping maxWait interval fuel elapsed i = some (false, e, k)
        ∧ maxWait ≤ e ∧ e < maxWait + interval := by
  intro fuel
  induction fuel with
  | zero => intro elapsed i hf _; exact absurd hf (Nat.not_lt_zero _)
  | succ fuel ih =>
    intro elapsed i hf hb
    by_cases hlt : elapsed < maxWait
    · have hstep : pingPhase ping maxWait interval (fuel + 1) elapsed i
          = pingPhase ping maxWait interval fuel (elapsed + interval) (i + 1) := by
        simp [pingPhase, hlt, hall i]
      rw [hstep]
      exact ih (elapsed + interval) (i + 1) (by omega) (by omega)
    · exact ⟨elapsed, i, by simp [pingPhase, hlt], by omega, hb⟩

/-- Phase-2 helper: `n` remaining attempts, every probe failing, gives the
`False` verdict after `n` probes and `5n` further seconds. -/
theorem sshRetryLoop_allFail (oracle : Nat → Nat → Bool) :
    ∀ (n i elapsed : Nat),
      (∀ j, j < n → oracle (i + j) checkSshReadyDefaultTimeout = false) →
      sshRetryLoop oracle n elapsed i
        = (false, elapsed + 5 * n, List.replicate n checkSshReadyDefaultTimeout) := by
  intro n
  induction n with
  | zero => intro i elapsed _; simp [sshRetryLoop]
  | succ n ih =>
    intro i elapsed h
    have h0 : oracle i checkSshReadyDefaultTimeout = false := by
      have := h 0 (Nat.succ_pos n); simpa using this
    have hrec := ih (i + 1) (elapsed + 5) (fun j hj => by
      have := h (j + 1) (Nat.succ_lt_succ hj)
      rw [Nat.succ_add]; exact this)
    simp only [sshRetryLoop, check_ssh_ready, h0, Bool.false_eq_true, if_false, hrec,
      List.replicate_succ]
    refine Prod.ext rfl (Prod.ext ?_ rfl)
    simp; omega

/-- Phase-2 helper: if probe `j` is the first to succeed, the loop returns the
`True` verdict after `j + 1` probes and `5j` further seconds. -/
theorem sshRetryLoop_firstSuccess (oracle : Nat → Nat → Bool) :
    ∀ (n j i elapsed : Nat), j < n →
      (∀ l, l < j → oracle (i + l) checkSshReadyDefaultTimeout = false) →
      oracle (i + j) checkSshReadyDefaultTimeout = true →
      sshRetryLoop oracle n elapsed i
        = (true, elapsed + 5 * j, List.replicate (j + 1) checkSshReadyDefaultTimeout) := by
  intro n
  induction n with
  | zero => intro j i elapsed hj _ _; exact absurd hj (Nat.not_lt_zero j)
  | succ n ih =>
    intro j i elapsed hj hfail hsucc
    cases j with
    | zero =>
      have h0 : oracle i checkSshReadyDefaultTimeout = true := by simpa using hsucc
      simp [sshRetryLoop, check_ssh_ready, h0]
    | succ j =>
      have h0 : oracle i checkSshReadyDefaultTimeout = false := by
        have := hfail 0 (Nat.succ_pos j); simpa using this
      have hrec := ih j (i + 1) (elapsed + 5) (by omega)
        (fun l hl => by
          have := hfail (l + 1) (Nat.succ_lt_succ hl)
          rw [Nat.succ_add]; exact this)
        (by rw [Nat.succ_add]; exact hsucc)
      simp only [sshRetryLoop, check_ssh_ready, h0, Bool.false_eq_true, if_false, hrec,
        List.replicate_succ]
      refine Prod.ext rfl (Prod.ext ?_ rfl)
      simp; omega

/-- C3: if every liveness probe fails and the poll interval is positive, the
readiness state machine terminates with the `False` verdict (TIMEOUT_PING),
makes no session probe, and the idealized elapsed time at termination is at
least `max_wait_time` and strictly below `max_wait_time + ping_interval`. -/
theorem wait_for_online_timeout_ping (nas : NASConfig) (ping : Nat → Bool)
    (sshOracle : Nat → Nat → Bool)
    (hall : ∀ j, ping j = false) (hpos : 0 < nas.ping_interval) :
    (wait_for_online ping sshOracle nas (nas.max_wait_time + 1)).map
        (fun w => (w.ready, w.sshProbes,
          decide (nas.max_wait_time ≤ w.elapsed
            ∧ w.elapsed < nas.max_wait_time + nas.ping_interval)))
      = some (false, [], true) := by
  obtain ⟨e, k, heq, h1, h2⟩ := pingPhase_allFail ping nas.max_wait_time nas.ping_interval
    hpos hall (nas.max_wait_time + 1) 0 0 (by omega) (by omega)
  simp [wait_for_online, heq, h1, h2]

/-- C3 witness: the default configuration (300s max wait, 5s interval) with
all pings failing. -/
theorem wait_for_online_timeout_ping_witness :
    (wait_for_online (fun _ => false) (fun _ _ => false) nasW (nasW.max_wait_time + 1)).map
        (fun w => (w.ready, w.sshProbes,
          decide (nasW.max_wait_time ≤ w.elapsed
            ∧ w.elapsed < nasW.max_wait_time + nasW.ping_interval)))
      = some (false, [], true) :=
  wait_for_online_timeout_ping nasW (fun _ => false) (fun _ _ => false)
    (fun _ => rfl) (by decide)

/-- C4: if the first liveness probe succeeds, then (a) with every session
probe failing the machine returns the `False` verdict (TIMEOUT_SESSION) after
the `ssh_ready_wait` settle delay plus exactly 10 probes with 5-second spacing,
each probe using the default 5-second per-attempt timeout; (b) if probe `j` is
the first to succeed the machine returns the `True` verdict (SESSION_READY)
after `j + 1` probes. -/
theorem wait_for_online_session_phase (nas : NASConfig) (ping : Nat → Bool)
    (sshOracle : Nat → Nat → Bool) (fuel : Nat)
    (hping : ping 0 = true) (hmax : 0 < nas.max_wait_time) :
    ((∀ i, i < 10 → sshOracle i checkSshReadyDefaultTimeout = false) →
        wait_for_online ping sshOracle nas (fuel + 1)
          = some { ready := false, elapsed := nas.ssh_ready_wait + 50, pingCalls := 1,
                   sshProbes := List.replicate 10 checkSshReadyDefaultTimeout })
    ∧ (∀ j, j < 10 →
        (∀ i, i < j → sshOracle i checkSshReadyDefaultTimeout = false) →
        sshOracle j checkSshReadyDefaultTimeout = true →
        wait_for_online ping sshOracle nas (fuel + 1)
          = some { ready := true, elapsed := nas.ssh_ready_wait + 5 * j, pingCalls := 1,
                   sshProbes := List.replicate (j + 1) checkSshReadyDefaultTimeout }) := by
  have hphase1 : pingPhase ping nas.max_wait_time nas.ping_interval (fuel + 1) 0 0
      = some (true, 0, 1) := by
    simp [pingPhase, hmax, hping]
  constructor
  · intro hfail
    have hloop := sshRetryLoop_allFail sshOracle 10 0 nas.ssh_ready_wait
      (fun j hj => by simpa using hfail j hj)
    simp [wait_for_online, hphase1, hloop]
  · intro j hj hfail hsucc
    have hloop := sshRetryLoop_firstSuccess sshOracle 10 j 0 nas.ssh_ready_wait hj
      (fun l hl => by simpa using hfail l hl) (by simpa using hsucc)
    simp [wait_for_online, hphase1, hloop]

/-- C4 witness: default configuration, liveness at once; (a) all probes fail,
(b) the very first probe succeeds. -/
theorem wait_for_online_session_phase_witness :
    (wait_for_online (fun _ => true) (fun _ _ => false) nasW 1
        = some { ready := false, elapsed := nasW.ssh_ready_wait + 50, pingCalls := 1,
                 sshProbes := List.replicate 10 checkSshReadyDefaultTimeout })
    ∧ wait_for_online (fun _ => true) (fun _ _ => true) nasW 1
        = some { ready := true, elapsed := nasW.ssh_ready_wait + 5 * 0, pingCalls := 1,
                 sshProbes := List.replicate (0 + 1) checkSshReadyDefaultTimeout } :=
  ⟨(wait_for_online_session_phase nasW (fun _ => true) (fun _ _ => false) 0 rfl
      (by decide)).1 (fun _ _ => rfl),
   (wait_for_online_session_phase nasW (fun _ => true) (fun _ _ => true) 0 rfl
      (by decide)).2 0 (by decide) (fun i hi => absurd hi (Nat.not_lt_zero i)) rfl⟩

-- ==================== Claims about the leaf operations ====================

/-- C8 fails as stated: with a private key configured but its file missing,
`rsync_backup` launches the mirroring tool WITHOUT setting `RSYNC_RSH`,
falling back to ambient ssh defaults. -/
theorem rsync_backup_key_counterexample :
    ((rsync_backup "admin" "192.168.1.50" 2222 (some "/root/.ssh/id_ed25519") false
        { local_dir := "/mnt/pve/dump", nas_dir := "/volume1/backup" } true
        (Except.ok 0)).invocation.map fun inv => inv.2)
      = some none := rfl

/-- C8 (amended): whenever a private key path is configured AND the key file
exists, the rsync invocation routes the remote shell through that key and the
configured port via `RSYNC_RSH`. -/
theorem rsync_backup_key_routing (ssh_user nas_ip : String) (ssh_port : Nat)
    (k : String) (backup : BackupConfig) (launch : RsyncLaunch) :
    ((rsync_backup ssh_user nas_ip ssh_port (some k) true backup true launch).invocation.map
        fun inv => inv.2)
      = some (some ("/usr/bin/ssh -i " ++ k ++ " -p " ++ toString ssh_port)) := by
  unfold rsync_backup
  cases launch with
  | error msg => rfl
  | ok rc => by_cases h : rc = 0 <;> simp [h]

/-- C9 fails as stated: a failed size probe yields the string "Unknown",
capitalized, not "unknown". -/
theorem get_directory_size_counterexample :
    get_directory_size none = "Unknown" ∧ "Unknown" ≠ "unknown" :=
  ⟨rfl, by decide⟩

/-- C10: for every command and every behaviour of the underlying channel,
`execute_ssh_command` with no session client returns `(None, None, False)`
instead of raising. -/
theorem execute_ssh_command_no_client (command : String) (outcome : ExecOutcome) :
    execute_ssh_command none command outcome = (none, none, false) := rfl

-- ==================== Orchestrator inversion ====================

/-- Symbolic execution of the `try` block: whichever path a run takes, the
state it leaves behind is one of the twelve leaves of `tryLeaves`. -/
theorem tryBody_mem_leaves (cfg : Config) (env : Env) (fuel : Nat) (t : TryOutcome)
    (h : tryBody cfg env fuel = some t) : t ∈ tryLeaves cfg env := by
  unfold tryBody at h
  dsimp only at h
  by_cases h1 : env.interrupt = some IPoint.beforeWol
  · rw [if_pos h1] at h; injection h with h; subst h; simp [tryLeaves]
  rw [if_neg h1] at h
  by_cases h2 : (!send_wol env.wolOk) = true
  · rw [if_pos h2] at h; injection h with h; subst h; simp [tryLeaves]
  rw [if_neg h2] at h
  by_cases h3 : env.interrupt = some IPoint.beforeWait
  · rw [if_pos h3] at h; injection h with h; subst h; simp [tryLeaves]
  rw [if_neg h3] at h
  rcases hw : wait_for_online (pingFn env) env.sshOracle cfg.nas fuel with _ | w
  · rw [hw] at h; exact absurd h (by simp)
  rw [hw] at h
  dsimp only at h
  by_cases h4 : (!w.ready) = true
  · rw [if_pos h4] at h; injection h with h; subst h; simp [tryLeaves]
  rw [if_neg h4] at h
  by_cases h5 : env.interrupt = some IPoint.beforeConnect
  · rw [if_pos h5] at h; injection h with h; subst h; simp [tryLeaves]
  rw [if_neg h5] at h
  by_cases h6 : (!connect_ssh env.connectOk) = true
  · rw [if_pos h6] at h; injection h with h; subst h; simp [tryLeaves]
  rw [if_neg h6] at h
  by_cases h7 : env.interrupt = some IPoint.beforeRsync
  · rw [if_pos h7] at h; injection h with h; subst h; simp [tryLeaves]
  rw [if_neg h7] at h
  by_cases h8 : (!(rsyncStep cfg env).ok) = true
  · rw [if_pos h8] at h; injection h with h; subst h; simp [tryLeaves]
  rw [if_neg h8] at h
  by_cases h9 : env.interrupt = some IPoint.beforeDu
  · rw [if_pos h9] at h; injection h with h; subst h; simp [tryLeaves]
  rw [if_neg h9] at h
  by_cases h10 : env.interrupt = some IPoint.beforeShutdown
  · rw [if_pos h10] at h; injection h with h; subst h; simp [tryLeaves]
  rw [if_neg h10] at h
  by_cases h11 : env.interrupt = some IPoint.beforeSuccess
  · rw [if_pos h11] at h; injection h with h; subst h; simp [tryLeaves]
  rw [if_neg h11] at h
  injection h with h; subst h; simp [tryLeaves]

/-- A `Popen` launch is the only event an `rsync_backup` call can emit; in
particular it never closes anything. -/
theorem popenEvents_counts (rr : RsyncResult) :
    (popenEvents rr).count Event.closeSshCall = 0
    ∧ (popenEvents rr).count Event.clientClose = 0 := by
  unfold popenEvents
  split <;> simp [List.count_cons]

/-- Inversion of `mainRun`: a terminating run is the `finally` clause applied
to some state `t` the `try` block ended in. -/
theorem mainRun_inv (cfg : Config) (env : Env) (fuel : Nat) (r : RunResult)
    (h : mainRun cfg env fuel = some r) :
    ∃ t, tryBody cfg env fuel = some t
      ∧ r = { success := t.success, errorMsg := t.errorMsg, fileSize := t.fileSize,
              waitVerdict := t.waitVerdict, connectCalled := t.connectCalled,
              rsyncResult := t.rsyncResult,
              notified := notifyDecision cfg.notification t.success,
              exitCode := if t.success then 0 else 1,
              events := t.events ++ [Event.closeSshCall] ++ close_ssh t.connectCalled
                ++ (if notifyDecision cfg.notification t.success then [Event.webhookPost]
                    else []) } := by
  unfold mainRun at h
  rcases ht : tryBody cfg env fuel with _ | t
  · rw [ht] at h; exact absurd h (by simp)
  · rw [ht] at h
    dsimp only at h
    injection h with h
    exact ⟨t, rfl, h.symm⟩

/-- No path through the `try` block emits a session-close action. -/
theorem tryBody_no_close (cfg : Config) (env : Env) (fuel : Nat) (t : TryOutcome)
    (h : tryBody cfg env fuel = some t) :
    t.events.count Event.closeSshCall = 0 ∧ t.events.count Event.clientClose = 0 := by
  have hmem := tryBody_mem_leaves cfg env fuel t h
  simp only [tryLeaves, List.mem_cons, List.not_mem_nil, or_false] at hmem
  rcases hmem with rfl | rfl | rfl | rfl | rfl | rfl | rfl | rfl | rfl | rfl | rfl | rfl <;>
    simp [interruptedOutcome, List.count_append, List.count_cons,
      (popenEvents_counts (rsyncStep cfg env)).1, (popenEvents_counts (rsyncStep cfg env)).2]

/-- Neither the size-probe outcome nor the shutdown-command outcome can alter
which path the `try` block takes or anything it leaves behind except the
recorded size string. -/
theorem tryBody_du_shutdown_independent (cfg : Config) (env : Env) (fuel : Nat)
    (d : DuRaw) (b : Bool) :
    (tryBody cfg { env with du := d, shutdownExecRaises := b } fuel).map tryView
      = (tryBody cfg env fuel).map tryView := by
  unfold tryBody
  dsimp only
  rw [show pingFn { env with du := d, shutdownExecRaises := b } = pingFn env from rfl]
  rw [show rsyncStep cfg { env with du := d, shutdownExecRaises := b }
      = rsyncStep cfg env from rfl]
  by_cases h1 : env.interrupt = some IPoint.beforeWol
  · rw [if_pos h1, if_pos h1]
  rw [if_neg h1, if_neg h1]
  by_cases h2 : (!send_wol env.wolOk) = true
  · rw [if_pos h2, if_pos h2]
  rw [if_neg h2, if_neg h2]
  by_cases h3 : env.interrupt = some IPoint.beforeWait
  · rw [if_pos h3, if_pos h3]
  rw [if_neg h3, if_neg h3]
  rcases hw : wait_for_online (pingFn env) env.sshOracle cfg.nas fuel with _ | w
  · rfl
  dsimp only
  by_cases h4 : (!w.ready) = true
  · rw [if_pos h4, if_pos h4]
  rw [if_neg h4, if_neg h4]
  by_cases h5 : env.interrupt = some IPoint.beforeConnect
  · rw [if_pos h5, if_pos h5]
  rw [if_neg h5, if_neg h5]
  by_cases h6 : (!connect_ssh env.connectOk) = true
  · rw [if_pos h6, if_pos h6]
  rw [if_neg h6, if_neg h6]
  by_cases h7 : env.interrupt = some IPoint.beforeRsync
  · rw [if_pos h7, if_pos h7]
  rw [if_neg h7, if_neg h7]
  by_cases h8 : (!(rsyncStep cfg env).ok) = true
  · rw [if_pos h8, if_pos h8]
  rw [if_neg h8, if_neg h8]
  by_cases h9 : env.interrupt = some IPoint.beforeDu
  · rw [if_pos h9, if_pos h9]
  rw [if_neg h9, if_neg h9]
  by_cases h10 : env.interrupt = some IPoint.beforeShutdown
  · rw [if_pos h10, if_pos h10]; simp [tryView, interruptedOutcome]
  rw [if_neg h10, if_neg h10]
  by_cases h11 : env.interrupt = some IPoint.beforeSuccess
  · rw [if_pos h11, if_pos h11]; simp [tryView, interruptedOutcome]
  rw [if_neg h11, if_neg h11]
  simp [tryView]

/-- Lifted to `mainRun`: the run's verdict, error message, exit code and
notification decision are independent of the `du` probe and of the shutdown
command's fate. -/
theorem mainRun_du_shutdown_independent (cfg : Config) (env : Env) (fuel : Nat)
    (d : DuRaw) (b : Bool) :
    (mainRun cfg { env with du := d, shutdownExecRaises := b } fuel).map
        (fun r => (r.success, r.errorMsg, r.exitCode, r.notified))
      = (mainRun cfg env fuel).map
          fun r => (r.success, r.errorMsg, r.exitCode, r.notified) := by
  have h := tryBody_du_shutdown_independent cfg env fuel d b
  unfold mainRun
  rcases h1 : tryBody cfg { env with du := d, shutdownExecRaises := b } fuel with _ | t1 <;>
    rcases h2 : tryBody cfg env fuel with _ | t2 <;>
      rw [h1, h2] at h <;> simp_all [tryView]

/-- Forward walk of the all-steps-succeed path: WOL sent, readiness reached,
SSH connected, rsync exited 0, size probed, shutdown attempted, success set. -/
theorem tryBody_success_path (cfg : Config) (env : Env) (fuel : Nat) (w : WaitResult)
    (hi : env.interrupt = none) (hwol : env.wolOk = true) (hcon : env.connectOk = true)
    (hok : (rsyncStep cfg env).ok = true)
    (hw : wait_for_online (pingFn env) env.sshOracle cfg.nas fuel = some w)
    (hready : w.ready = true) :
    tryBody cfg env fuel
      = some { success := true, errorMsg := none,
               fileSize := some (get_directory_size env.du), waitVerdict := some true,
               connectCalled := true, rsyncResult := some (rsyncStep cfg env),
               events := [Event.sendWolCall] ++ [Event.connectSshCall]
                 ++ popenEvents (rsyncStep cfg env) ++ [Event.duCall]
                 ++ [Event.shutdownCall] } := by
  unfold tryBody
  simp [hi, hwol, hcon, hok, hw, hready, send_wol, connect_ssh]

/-- Forward walk of the path where everything up to the sync works but
`rsync_backup` reports failure: the run raises "Backup failed" right after
step 3, before the size probe and the shutdown step. -/
theorem tryBody_backup_failed_path (cfg : Config) (env : Env) (fuel : Nat) (w : WaitResult)
    (hi : env.interrupt = none) (hwol : env.wolOk = true) (hcon : env.connectOk = true)
    (hok : (rsyncStep cfg env).ok = false)
    (hw : wait_for_online (pingFn env) env.sshOracle cfg.nas fuel = some w)
    (hready : w.ready = true) :
    tryBody cfg env fuel
      = some { success := false, errorMsg := some "Backup failed", fileSize := none,
               waitVerdict := some true, connectCalled := true,
               rsyncResult := some (rsyncStep cfg env),
               events := [Event.sendWolCall] ++ [Event.connectSshCall]
                 ++ popenEvents (rsyncStep cfg env) } := by
  unfold tryBody
  simp [hi, hwol, hcon, hok, hw, hready, send_wol, connect_ssh]

-- ==================== Orchestrator claims ====================

/-- C1: in every terminating run, `rsync_backup` is called only if
`wait_for_online` returned `True` in that run, and whenever `wait_for_online`
returned `False` no `rsync_backup` call happens. -/
theorem rsync_gated_on_readiness (cfg : Config) (env : Env) (fuel : Nat) (r : RunResult)
    (h : mainRun cfg env fuel = some r) :
    (r.rsyncResult.isSome = true → r.waitVerdict = some true)
    ∧ (r.waitVerdict = some false → r.rsyncResult = none) := by
  obtain ⟨t, ht, rfl⟩ := mainRun_inv cfg env fuel r h
  dsimp only
  have hmem := tryBody_mem_leaves cfg env fuel t ht
  simp only [tryLeaves, List.mem_cons, List.not_mem_nil, or_false] at hmem
  rcases hmem with rfl | rfl | rfl | rfl | rfl | rfl | rfl | rfl | rfl | rfl | rfl | rfl <;>
    simp [interruptedOutcome]

/-- C1 witness: a run whose readiness phase times out never calls the sync
executor. -/
theorem rsync_gated_on_readiness_witness :
    mainRun cfgW envNoPing 301 = some rNoPing
    ∧ ((rNoPing.rsyncResult.isSome = true → rNoPing.waitVerdict = some true)
       ∧ (rNoPing.waitVerdict = some false → rNoPing.rsyncResult = none)) :=
  ⟨rfl, rsync_gated_on_readiness cfgW envNoPing 301 rNoPing rfl⟩

/-- C2: every terminating run makes exactly one `close_ssh` call, and the
underlying client is closed exactly once when one was created and never
otherwise. -/
theorem session_closed_exactly_once (cfg : Config) (env : Env) (fuel : Nat) (r : RunResult)
    (h : mainRun cfg env fuel = some r) :
    r.events.count Event.closeSshCall = 1
    ∧ r.events.count Event.clientClose = (if r.connectCalled = true then 1 else 0) := by
  obtain ⟨t, ht, rfl⟩ := mainRun_inv cfg env fuel r h
  obtain ⟨hc1, hc2⟩ := tryBody_no_close cfg env fuel t ht
  dsimp only
  cases hcc : t.connectCalled <;>
    cases hnd : notifyDecision cfg.notification t.success <;>
      simp [close_ssh, List.count_append, List.count_cons, hc1, hc2, hcc, hnd]

/-- C2 witness: a run whose SSH connect fails (the client object was still
created) closes the session exactly once. -/
theorem session_closed_exactly_once_witness :
    mainRun cfgW envNoConnect 1 = some rNoConnect
    ∧ (rNoConnect.events.count Event.closeSshCall = 1
       ∧ rNoConnect.events.count Event.clientClose
           = (if rNoConnect.connectCalled = true then 1 else 0)) :=
  ⟨rfl, session_closed_exactly_once cfgW envNoConnect 1 rNoConnect rfl⟩

/-- C5 fails as stated: notification enabled, on_success true and a successful
run, yet with no webhook URL configured no webhook call is made. -/
theorem notification_sent_counterexample :
    (mainRun cfgWnoHook envBase 1).map
        (fun r => (r.success, r.notified, cfgWnoHook.notification.enabled,
          cfgWnoHook.notification.on_success))
      = some (true, false, true, true) := rfl

/-- C5 (amended): the webhook notification is attempted iff notification is
enabled, the outcome matches the on_success/on_failure toggles, AND a truthy
webhook URL is configured. -/
theorem notification_sent_iff (cfg : Config) (env : Env) (fuel : Nat) (r : RunResult)
    (h : mainRun cfg env fuel = some r) :
    r.notified = true
      ↔ (cfg.notification.enabled = true
          ∧ ((r.success = true ∧ cfg.notification.on_success = true)
              ∨ (r.success = false ∧ cfg.notification.on_failure = true))
          ∧ webhookConfigured cfg.notification = true) := by
  obtain ⟨t, ht, rfl⟩ := mainRun_inv cfg env fuel r h
  dsimp only
  obtain ⟨nasC, backupC, logC, notifC⟩ := cfg
  obtain ⟨en, wh, onS, onF⟩ := notifC
  dsimp only
  unfold notifyDecision
  cases en <;> cases hts : t.success <;> cases onS <;> cases onF <;>
    rcases wh with _ | s <;>
      simp_all [webhookConfigured, send_discord_notification]

/-- C5 witness: failure notification with a configured webhook is sent. -/
theorem notification_sent_iff_witness :
    mainRun cfgWnotif envNoWol 1 = some rNoWol
    ∧ (rNoWol.notified = true
        ↔ (cfgWnotif.notification.enabled = true
            ∧ ((rNoWol.success = true ∧ cfgWnotif.notification.on_success = true)
                ∨ (rNoWol.success = false ∧ cfgWnotif.notification.on_failure = true))
            ∧ webhookConfigured cfgWnotif.notification = true)) :=
  ⟨rfl, notification_sent_iff cfgWnotif envNoWol 1 rNoWol rfl⟩

/-- C6 fails as stated: with the source directory missing, the run outcome's
error message is the generic "Backup failed", which does not contain the text
"does not exist" (that text only appears in the log line). -/
theorem source_missing_counterexample :
    (mainRun cfgW envNoSrc 1).map (fun r => r.errorMsg) = some (some "Backup failed")
    ∧ strContains "Backup failed" "does not exist" = false :=
  ⟨rfl, by decide⟩

/-- C6 (amended): when the source directory is missing (and the run reaches
the sync phase), the sync fails immediately without launching the mirroring
tool, logging "Source directory does not exist: ..."; the run outcome has
success = false with error message "Backup failed" and the process exits 1. -/
theorem source_missing_aborts_sync (cfg : Config) (env : Env) (fuel : Nat)
    (w : WaitResult) (r : RunResult)
    (hi : env.interrupt = none) (hwol : env.wolOk = true) (hcon : env.connectOk = true)
    (hsrc : env.srcExists = false)
    (hw : wait_for_online (pingFn env) env.sshOracle cfg.nas fuel = some w)
    (hready : w.ready = true)
    (h : mainRun cfg env fuel = some r) :
    r.success = false ∧ r.errorMsg = some "Backup failed" ∧ r.exitCode = 1
    ∧ r.rsyncResult = some { ok := false, invocation := none,
                             logs := ["Source directory does not exist: "
                               ++ cfg.backup.local_dir] }
    ∧ ∀ cmd rsh, Event.rsyncPopen cmd rsh ∉ r.events := by
  have hrr : rsyncStep cfg env
      = { ok := false, invocation := none,
          logs := ["Source directory does not exist: " ++ cfg.backup.local_dir] } := by
    simp [rsyncStep, rsync_backup, hsrc]
  have hok : (rsyncStep cfg env).ok = false := by rw [hrr]
  have ht := tryBody_backup_failed_path cfg env fuel w hi hwol hcon hok hw hready
  obtain ⟨t, ht2, rfl⟩ := mainRun_inv cfg env fuel r h
  rw [ht] at ht2
  injection ht2 with ht2
  subst ht2
  dsimp only
  refine ⟨rfl, rfl, rfl, by rw [hrr], ?_⟩
  intro cmd rsh
  cases hnd : notifyDecision cfg.notification false <;>
    simp [hrr, popenEvents, close_ssh, hnd]

/-- C6 witness: the concrete missing-source run. -/
theorem source_missing_aborts_sync_witness :
    wait_for_online (pingFn envNoSrc) envNoSrc.sshOracle cfgW.nas 1 = some wReady
    ∧ mainRun cfgW envNoSrc 1 = some rNoSrc
    ∧ (rNoSrc.success = false ∧ rNoSrc.errorMsg = some "Backup failed"
       ∧ rNoSrc.exitCode = 1
       ∧ rNoSrc.rsyncResult = some { ok := false, invocation := none,
                                     logs := ["Source directory does not exist: "
                                       ++ cfgW.backup.local_dir] }) := by
  have h := source_missing_aborts_sync cfgW envNoSrc 1 wReady rNoSrc
    rfl rfl rfl rfl rfl rfl rfl
  exact ⟨rfl, rfl, h.1, h.2.1, h.2.2.1, h.2.2.2.1⟩

/-- C7: (a) with an open session, `shutdown_nas` reports success whether or
not the connection drops while the command is issued; (b) the shutdown
command's fate never changes the run verdict, error message, exit code or
notification decision; (c) a run that reaches the shutdown step (all earlier
steps succeeded) ends with success and exit code 0. -/
theorem shutdown_best_effort :
    (∀ execRaises, shutdown_nas true execRaises = true)
    ∧ (∀ (cfg : Config) (env : Env) (fuel : Nat) (b : Bool),
        (mainRun cfg { env with shutdownExecRaises := b } fuel).map
            (fun r => (r.success, r.errorMsg, r.exitCode, r.notified))
          = (mainRun cfg env fuel).map
              fun r => (r.success, r.errorMsg, r.exitCode, r.notified))
    ∧ ∀ (cfg : Config) (env : Env) (fuel : Nat) (w : WaitResult),
        env.interrupt = none → env.wolOk = true → env.connectOk = true →
        (rsyncStep cfg env).ok = true →
        wait_for_online (pingFn env) env.sshOracle cfg.nas fuel = some w →
        w.ready = true →
        (mainRun cfg env fuel).map (fun r => (r.success, r.exitCode)) = some (true, 0) := by
  refine ⟨fun b => by cases b <;> rfl, ?_, ?_⟩
  · intro cfg env fuel b
    exact mainRun_du_shutdown_independent cfg env fuel env.du b
  · intro cfg env fuel w hi hwol hcon hok hw hready
    have ht := tryBody_success_path cfg env fuel w hi hwol hcon hok hw hready
    unfold mainRun
    rw [ht]
    rfl

/-- C7 witness: a run in which the shutdown command drops the connection still
exits 0 with success. -/
theorem shutdown_best_effort_witness :
    wait_for_online (pingFn envShutdownDrop) envShutdownDrop.sshOracle cfgW.nas 1
        = some wReady
    ∧ (mainRun cfgW envShutdownDrop 1).map (fun r => (r.success, r.exitCode))
        = some (true, 0) :=
  ⟨rfl, shutdown_best_effort.2.2 cfgW envShutdownDrop 1 wReady rfl rfl rfl rfl rfl rfl⟩

/-- C9 (amended): the size probe is total and best-effort — an exception or a
non-zero exit yields the string "Unknown" — and its outcome never influences
the run verdict, error message, exit code or notification decision. -/
theorem size_probe_best_effort :
    get_directory_size none = "Unknown"
    ∧ (∀ (rc : Int) (out : String), rc ≠ 0 → get_directory_size (some (rc, out)) = "Unknown")
    ∧ ∀ (cfg : Config) (env : Env) (fuel : Nat) (d : DuRaw),
        (mainRun cfg { env with du := d } fuel).map
            (fun r => (r.success, r.errorMsg, r.exitCode, r.notified))
          = (mainRun cfg env fuel).map
              fun r => (r.success, r.errorMsg, r.exitCode, r.notified) := by
  refine ⟨rfl, ?_, ?_⟩
  · intro rc out hrc
    simp [get_directory_size, hrc]
  · intro cfg env fuel d
    exact mainRun_du_shutdown_independent cfg env fuel d env.shutdownExecRaises

/-- C9 witness: a failing `du` (exit code 1, and separately an exception)
yields "Unknown" and leaves the concrete run's verdict untouched. -/
theorem size_probe_best_effort_witness :
    get_directory_size (some (1, "4.0K\t/tmp")) = "Unknown"
    ∧ (mainRun cfgW { envBase with du := none } 1).map
          (fun r => (r.success, r.errorMsg, r.exitCode, r.notified))
        = (mainRun cfgW envBase 1).map
            fun r => (r.success, r.errorMsg, r.exitCode, r.notified) :=
  ⟨size_probe_best_effort.2.1 1 "4.0K\t/tmp" (by decide),
   size_probe_best_effort.2.2 cfgW envBase 1 none⟩
